import Mathlib

/-!
Verification of the `loggerv` logger core (src/lib.rs) against its design
specification.  The Rust source is shallowly embedded: the `Logger` builder,
its chained setters, the level-threshold resolution performed by `init`, the
record-formatting closure, the per-level output routing, and the one-shot
global registration are all translated into executable Lean definitions.
External collaborators (the `env_logger` filter engine, the `atty` terminal
detector, the `ansi_term` colour renderer and the `log` facade's global
registration) are modelled from the specification's interface descriptions
(spec sections 4.1, 6, 7 and 9) and are marked as such in their doc comments;
interactivity answers from `atty` are passed as explicit boolean parameters.
-/

namespace Loggerv

/-- Severities of the `log` crate: Error < Warn < Info < Debug < Trace,
ordered by increasing verbosity. -/
inductive LogLevel
  | error
  | warn
  | info
  | debug
  | trace
deriving DecidableEq, Repr

/-- Level filters of the `log` crate: `Off` plus the five severities. -/
inductive LevelFilter
  | off
  | error
  | warn
  | info
  | debug
  | trace
deriving DecidableEq, Repr

/-- Numeric rank of a level filter, increasing with verbosity
(`Off` = 0, `Error` = 1, ..., `Trace` = 5). -/
def LevelFilter.rank : LevelFilter → Nat
  | .off => 0
  | .error => 1
  | .warn => 2
  | .info => 3
  | .debug => 4
  | .trace => 5

/-- `log::Level::to_level_filter`. -/
def LogLevel.toLevelFilter : LogLevel → LevelFilter
  | .error => LevelFilter.error
  | .warn => LevelFilter.warn
  | .info => LevelFilter.info
  | .debug => LevelFilter.debug
  | .trace => LevelFilter.trace

/-- `Display` text of a `log::Level` (`level.to_string()` in the write
closure). -/
def LogLevel.text : LogLevel → String
  | .error => "ERROR"
  | .warn => "WARN"
  | .info => "INFO"
  | .debug => "DEBUG"
  | .trace => "TRACE"

/-- Terminal colours of the `ansi_term` crate, as used by the logger
(`Colour::Fixed` for all defaults; `Colour::RGB` kept for generality). -/
inductive Colour
  | fixed (n : Nat)
  | rgb (r g b : Nat)
deriving DecidableEq, Repr

/-- Output streams (src/lib.rs lines 145-149). -/
inductive Output
  | stderr
  | stdout
deriving DecidableEq, Repr

/-- Per-severity style: destination stream and colour
(src/lib.rs lines 151-155, struct `Level`). -/
structure Level where
  output : Output
  color : Colour
deriving DecidableEq, Repr

def DEFAULT_COLORS : Bool := true
def DEFAULT_DEBUG_COLOR : Colour := Colour.fixed 7
def DEFAULT_ERROR_COLOR : Colour := Colour.fixed 9
def DEFAULT_INCLUDE_LEVEL : Bool := false
def DEFAULT_INCLUDE_LINE_NUMBERS : Bool := false
def DEFAULT_INCLUDE_MODULE_PATH : Bool := true
def DEFAULT_INFO_COLOR : Colour := Colour.fixed 10
def DEFAULT_OFFSET : Nat := 1
def DEFAULT_SEPARATOR : String := ": "
def DEFAULT_TRACE_COLOR : Colour := Colour.fixed 8
def DEFAULT_WARN_COLOR : Colour := Colour.fixed 11

/-- Modelled from the spec: a filter directive of the `env_logger` filter
engine (spec section 4.1), whose implementation is not part of this
repository.  `none` as the module name is the default directive
(`builder.filter(None, level)`); `some p` restricts the directive to module
paths that start with the prefix `p` at a segment boundary. -/
abbrev Directive := Option String × LevelFilter

/-- Modelled from the spec: the `env_logger` filter `Builder` (spec section
4.1), held in the `builder` field of the logger.  It accumulates the
directives pushed by `Builder::filter` and `Builder::parse` in order. -/
structure FilterBuilder where
  dirs : List Directive
deriving DecidableEq, Repr

/-- Modelled from the spec: `Filter::filter()` of the built filter — the
least restrictive (highest-rank) level among all directives (spec section
4.1, `max_threshold`), `Off` when there are no directives (spec section 6:
an absent environment baseline is "off"/unset). -/
def filterLevel (dirs : List Directive) : LevelFilter :=
  dirs.foldl (fun acc d => if acc.rank ≤ d.2.rank then d.2 else acc) LevelFilter.off

/-- The `Logger` builder (src/lib.rs lines 186-200). -/
structure Logger where
  colors : Bool
  builder : FilterBuilder
  include_level : Bool
  include_line_numbers : Bool
  include_module_path : Bool
  separator : String
  verbosity : Option Nat
  error : Level
  warn : Level
  info : Level
  debug : Level
  trace : Level
deriving DecidableEq, Repr

/-- `Logger::new` (src/lib.rs lines 216-246).  The directives parsed from the
`RUST_LOG` environment variable by `Builder::from_env` and the two `atty::is`
interactivity answers are external inputs, passed as parameters. -/
def Logger.new (envDirs : List Directive) (ttyOut ttyErr : Bool) : Logger where
  builder := ⟨envDirs⟩
  colors := DEFAULT_COLORS && ttyOut && ttyErr
  include_level := DEFAULT_INCLUDE_LEVEL
  include_line_numbers := DEFAULT_INCLUDE_LINE_NUMBERS
  include_module_path := DEFAULT_INCLUDE_MODULE_PATH
  separator := DEFAULT_SEPARATOR
  verbosity := none
  error := ⟨Output.stderr, DEFAULT_ERROR_COLOR⟩
  warn := ⟨Output.stderr, DEFAULT_WARN_COLOR⟩
  info := ⟨Output.stdout, DEFAULT_INFO_COLOR⟩
  debug := ⟨Output.stdout, DEFAULT_DEBUG_COLOR⟩
  trace := ⟨Output.stdout, DEFAULT_TRACE_COLOR⟩

/-- `Logger::color` (src/lib.rs lines 269-278): set the colour of one
severity. -/
def Logger.color (s : Logger) (l : LogLevel) (c : Colour) : Logger :=
  match l with
  | .error => { s with error := { s.error with color := c } }
  | .warn => { s with warn := { s.warn with color := c } }
  | .info => { s with info := { s.info with color := c } }
  | .debug => { s with debug := { s.debug with color := c } }
  | .trace => { s with trace := { s.trace with color := c } }

/-- `Logger::output` (src/lib.rs lines 524-533): set the destination stream
of one severity. -/
def Logger.output (s : Logger) (l : LogLevel) (o : Output) : Logger :=
  match l with
  | .error => { s with error := { s.error with output := o } }
  | .warn => { s with warn := { s.warn with output := o } }
  | .info => { s with info := { s.info with output := o } }
  | .debug => { s with debug := { s.debug with output := o } }
  | .trace => { s with trace := { s.trace with output := o } }

/-- `Logger::separator` (src/lib.rs lines 304-307); renamed because `Logger`
already has a `separator` field in Lean. -/
def Logger.setSeparator (s : Logger) (sep : String) : Logger :=
  { s with separator := sep }

/-- `Logger::colors` (src/lib.rs lines 329-332); renamed because `Logger`
already has a `colors` field in Lean.  The two `atty::is` answers at the
moment of the call are explicit parameters. -/
def Logger.setColors (s : Logger) (c : Bool) (ttyOut ttyErr : Bool) : Logger :=
  { s with colors := c && ttyOut && ttyErr }

/-- `Logger::no_colors` (src/lib.rs lines 354-357). -/
def Logger.no_colors (s : Logger) : Logger :=
  { s with colors := false }

/-- `Logger::line_numbers` (src/lib.rs lines 379-382). -/
def Logger.line_numbers (s : Logger) (i : Bool) : Logger :=
  { s with include_line_numbers := i }

/-- `Logger::level` (src/lib.rs lines 406-409). -/
def Logger.level (s : Logger) (i : Bool) : Logger :=
  { s with include_level := i }

/-- `Logger::max_level` (src/lib.rs lines 432-440): push a default directive
at the explicit level onto the filter builder and clear the verbosity. -/
def Logger.max_level (s : Logger) (l : LogLevel) : Logger :=
  { s with
    builder := ⟨s.builder.dirs ++ [(none, l.toLevelFilter)]⟩
    verbosity := none }

/-- `Logger::module_path` (src/lib.rs lines 462-465). -/
def Logger.module_path (s : Logger) (i : Bool) : Logger :=
  { s with include_module_path := i }

/-- `Logger::verbosity` (src/lib.rs lines 560-563); renamed because `Logger`
already has a `verbosity` field in Lean. -/
def Logger.setVerbosity (s : Logger) (v : Nat) : Logger :=
  { s with verbosity := some v }

/-- The level chosen from an effective verbosity rank by `init`
(src/lib.rs lines 695-701): 0 is Error, 1 Warn, 2 Info, 3 Debug, and every
other value Trace. -/
def verbosityLevel : Nat → LogLevel
  | 0 => LogLevel.error
  | 1 => LogLevel.warn
  | 2 => LogLevel.info
  | 3 => LogLevel.debug
  | _ => LogLevel.trace

/-- The verbosity offset computed by `init` from the environment-derived
baseline filter (src/lib.rs lines 676-683). -/
def offsetOf : LevelFilter → Nat
  | .off => DEFAULT_OFFSET
  | .error => 0
  | .warn => 1
  | .info => 2
  | .debug => 3
  | .trace => 4

/-- A log record as seen by the write closure (the relevant accessors of
`log::Record`: level, optional module path, optional line, message). -/
structure LogRecord where
  level : LogLevel
  module_path : Option String
  line : Option Nat
  args : String
deriving DecidableEq, Repr

/-- The installed logger (src/lib.rs lines 157-161, struct `InnerLogger`).
The two boxed closures of the source are defunctionalised: the values they
capture by move (separator, per-level colours and outputs, flags) become
fields, and `tagOf`, `writeLine`, `selectOutput` below replay their bodies. -/
structure InnerLogger where
  filter : List Directive
  separator : String
  colors : Bool
  include_level : Bool
  include_line_numbers : Bool
  include_module_path : Bool
  error : Level
  warn : Level
  info : Level
  debug : Level
  trace : Level
deriving DecidableEq, Repr

/-- The modulus of the `u64` type: verbosity counts and the offset are
`u64` values in the source, and their sum wraps modulo 2^64. -/
def U64_MOD : Nat := 2 ^ 64

/-- The pure content of `Logger::init` before registration
(src/lib.rs lines 658-774): force the separator to empty when the tag can
never be non-empty, compute the verbosity offset from the built filter's
level, and, when a verbosity is set, push a default directive at the
resolved level.  The sum `v + offset` (src/lib.rs line 695) is a `u64`
addition: in release builds it wraps modulo 2^64 (under debug overflow
checks it would abort instead), so it is modelled as `% U64_MOD`. -/
def Logger.finalizeConfig (s : Logger) : InnerLogger where
  filter :=
    match s.verbosity with
    | some v =>
        s.builder.dirs ++
          [(none,
            (verbosityLevel
              ((v + offsetOf (filterLevel s.builder.dirs)) % U64_MOD)).toLevelFilter)]
    | none => s.builder.dirs
  separator :=
    if !s.include_level && !s.include_line_numbers && !s.include_module_path then ""
    else s.separator
  colors := s.colors
  include_level := s.include_level
  include_line_numbers := s.include_line_numbers
  include_module_path := s.include_module_path
  error := s.error
  warn := s.warn
  info := s.info
  debug := s.debug
  trace := s.trace

/-- The resolved global threshold that `init` hands to
`log::set_max_level(logger.filter())` (src/lib.rs lines 163-167 and 775). -/
def Logger.resolvedMaxLevel (s : Logger) : LevelFilter :=
  filterLevel (s.finalizeConfig).filter

theorem filterLevel_append_one (ds : List Directive) (d : Directive) :
    filterLevel (ds ++ [d]) =
      if (filterLevel ds).rank ≤ d.2.rank then d.2 else filterLevel ds := by
  simp [filterLevel, List.foldl_append]

theorem rank_verbosityLevel (n : Nat) :
    ((verbosityLevel n).toLevelFilter).rank = min n 4 + 1 := by
  rcases n with _ | _ | _ | _ | n <;>
    simp [verbosityLevel, LogLevel.toLevelFilter, LevelFilter.rank]

theorem rank_le_verbosityLevel (b : LevelFilter) (v : Nat) :
    b.rank ≤ ((verbosityLevel (v + offsetOf b)).toLevelFilter).rank := by
  rw [rank_verbosityLevel]
  cases b <;> simp [offsetOf, LevelFilter.rank, DEFAULT_OFFSET]

/-- Colour escape opening of the `ansi_term` crate for a foreground colour
(`Style::prefix()`): `Fixed(n)` produces `ESC[38;5;nm`, `RGB(r,g,b)`
produces `ESC[38;2;r;g;bm`. -/
def Colour.escCode : Colour → String
  | .fixed n => "\x1b[38;5;" ++ toString n ++ "m"
  | .rgb r g b => "\x1b[38;2;" ++ toString r ++ ";" ++ toString g ++ ";" ++ toString b ++ "m"

/-- Colour reset of the `ansi_term` crate (`Style::suffix()`). -/
def escReset : String := "\x1b[0m"

/-- Modelled from the spec: the outbound colour-rendering collaborator
`paint(text, colour) -> text-with-escape-codes` (spec sections 1 and 6),
realised the way `ansi_term` does: `colour.paint(tag).to_string()` writes
the colour's escape opening, the text, and the reset. -/
def paint (c : Colour) (s : String) : String :=
  c.escCode ++ s ++ escReset

/-- The tag assembled by the write closure (src/lib.rs lines 736-761):
level text, module path text and line text, concatenated in that order. -/
def InnerLogger.tagOf (il : InnerLogger) (r : LogRecord) : String :=
  let level_text := if il.include_level then r.level.text else ""
  let module_path_text :=
    if il.include_module_path then
      let path := r.module_path.getD "unknown"
      if il.include_level then " [" ++ path ++ "]" else path
    else ""
  let line_text :=
    if il.include_line_numbers then
      match r.line with
      | some l => " (line " ++ toString l ++ ")"
      | none => ""
    else ""
  level_text ++ module_path_text ++ line_text

/-- The colour chosen for a severity by the write closure
(src/lib.rs lines 763-769). -/
def InnerLogger.colorFor (il : InnerLogger) (l : LogLevel) : Colour :=
  match l with
  | .error => il.error.color
  | .warn => il.warn.color
  | .info => il.info.color
  | .debug => il.debug.color
  | .trace => il.trace.color

/-- The full line produced by the write closure for one record
(src/lib.rs lines 735-773): the tag, painted when colours are enabled, then
the separator, the message, and the newline appended by `writeln!`. -/
def InnerLogger.writeLine (il : InnerLogger) (r : LogRecord) : String :=
  (if il.colors then paint (il.colorFor r.level) (il.tagOf r) else il.tagOf r)
    ++ il.separator ++ r.args ++ "\n"

/-- The `select_output` closure (src/lib.rs lines 726-734). -/
def InnerLogger.selectOutput (il : InnerLogger) (l : LogLevel) : Output :=
  match l with
  | .error => il.error.output
  | .warn => il.warn.output
  | .info => il.info.output
  | .debug => il.debug.output
  | .trace => il.trace.output

/-- Whether `pre` is an initial run of `s`. -/
def listStarts : List Char → List Char → Bool
  | [], _ => true
  | _ :: _, [] => false
  | a :: as, b :: bs => a == b && listStarts as bs

/-- Modelled from the spec: whether one `env_logger` directive applies to a
module path (spec section 4.2): the default directive applies to every
module, and a named directive applies when its module prefix matches at a
segment boundary (`"foo"` matches `"foo"` and `"foo::bar"`). -/
def dirApplies (name : Option String) (m : String) : Bool :=
  match name with
  | none => true
  | some p => m == p || listStarts (p.data ++ (String.data "::")) m.data

/-- Modelled from the spec: `effective_threshold` of the filter engine (spec
section 4.1): the threshold of the directive with the longest matching
prefix, the last registered one winning ties, and `Off` (nothing enabled)
when no directive applies. -/
def effectiveThreshold (dirs : List Directive) (m : String) : LevelFilter :=
  (dirs.foldl
      (fun acc d =>
        if dirApplies d.1 m then
          let len := match d.1 with | none => 0 | some p => p.length
          match acc with
          | none => some (len, d.2)
          | some (bl, bf) => if bl ≤ len then some (len, d.2) else some (bl, bf)
        else acc)
      none).elim LevelFilter.off (fun p => p.2)

/-- Modelled from the spec: `Filter::matches(record)` (spec sections 4.1 and
4.6): the record passes when its severity is at most as verbose as the
effective threshold for its module path. -/
def InnerLogger.matches (il : InnerLogger) (r : LogRecord) : Bool :=
  decide (r.level.toLevelFilter.rank ≤
    (effectiveThreshold il.filter (r.module_path.getD "")).rank)

/-- Outcome of one `InnerLogger::log` call.  `panicked` is the effect of the
`.expect(...)` on a failed stream write: the call aborts with the given
panic message instead of returning. -/
inductive LogOutcome
  | skipped
  | wrote (dest : Output) (line : String)
  | panicked (msg : String)
deriving DecidableEq, Repr

/-- The panic message of the `.expect` on each output arm
(src/lib.rs lines 177-178). -/
def expectMsg : Output → String
  | .stderr => "Write to stderr"
  | .stdout => "Write to stdout"

/-- `InnerLogger::log` (src/lib.rs lines 174-181).  The success of the
underlying stream write is an external input `writeOk`; on failure the
source's `.expect` turns the write error into a panic. -/
def InnerLogger.log (il : InnerLogger) (r : LogRecord) (writeOk : Bool) : LogOutcome :=
  if il.matches r then
    let dest := il.selectOutput r.level
    if writeOk then LogOutcome.wrote dest (il.writeLine r)
    else LogOutcome.panicked (expectMsg dest)
  else LogOutcome.skipped

/-- Modelled from the spec: the error returned by the `log` facade when a
second global logger is installed (spec section 7, DoubleRegistration). -/
inductive SetLoggerError
  | alreadySet
deriving DecidableEq, Repr

/-- Modelled from the spec: the process-wide state owned by the `log`
facade — the ambient maximum level and the at-most-one installed sink (spec
sections 7 and 9). -/
structure GlobalState where
  maxLevel : LevelFilter
  registered : Option InnerLogger

/-- `Logger::init` (src/lib.rs lines 658-777): freeze the configuration,
set the ambient maximum level, and attempt the one-shot registration of the
sink, which fails with an error on the second attempt. -/
def Logger.init (s : Logger) (g : GlobalState) :
    Except SetLoggerError Unit × GlobalState :=
  let il := s.finalizeConfig
  let g1 : GlobalState := { g with maxLevel := filterLevel il.filter }
  match g1.registered with
  | none => (Except.ok (), { g1 with registered := some il })
  | some _ => (Except.error SetLoggerError.alreadySet, g1)

theorem strData_append (a b : String) : (a ++ b).data = a.data ++ b.data := rfl

/-- The escape character that opens every ANSI escape sequence. -/
def escChar : Char := Char.ofNat 27

/-- Whether a string contains the ANSI escape character. -/
def hasEsc (s : String) : Bool := s.data.any (fun c => c == escChar)

theorem hasEsc_append (a b : String) :
    hasEsc (a ++ b) = (hasEsc a || hasEsc b) := by
  simp [hasEsc, strData_append, List.any_append]

theorem digitChar_beq_esc (n : Nat) (hn : n < 16) :
    (Nat.digitChar n == escChar) = false := by
  interval_cases n <;> decide

theorem toDigitsCore_any_esc (fuel : Nat) :
    ∀ (n : Nat) (acc : List Char),
      acc.any (fun c => c == escChar) = false →
      (Nat.toDigitsCore 10 fuel n acc).any (fun c => c == escChar) = false := by
  induction fuel with
  | zero =>
      intro n acc h
      simpa [Nat.toDigitsCore] using h
  | succ f ih =>
      intro n acc h
      have hd : (Nat.digitChar (n % 10) :: acc).any (fun c => c == escChar) = false := by
        simp [List.any_cons, h, digitChar_beq_esc (n % 10) (by omega)]
      rw [Nat.toDigitsCore]
      show (if n / 10 = 0 then Nat.digitChar (n % 10) :: acc
            else Nat.toDigitsCore 10 f (n / 10) (Nat.digitChar (n % 10) :: acc)).any
              (fun c => c == escChar) = false
      split
      · exact hd
      · exact ih _ _ hd

theorem hasEsc_natRepr (n : Nat) : hasEsc (Nat.repr n) = false := by
  unfold Nat.repr Nat.toDigits
  simpa [hasEsc, List.asString] using
    toDigitsCore_any_esc (n + 1) n [] (by simp)

/-- Definition following the specification's words for claim C3 (spec
section 4.2): the offset applied to a verbosity count — 1 when the baseline
is "off"/unset, otherwise the baseline's rank with Error = 0, Warn = 1,
Info = 2, Debug = 3, Trace = 4. -/
def specOffset : LevelFilter → Nat
  | .off => 1
  | .error => 0
  | .warn => 1
  | .info => 2
  | .debug => 3
  | .trace => 4

/-- Definition following the specification's words for claim C3: the level
obtained from an effective verbosity rank — 0 is Error, 1 Warn, 2 Info,
3 Debug, and any value at least 4 is Trace. -/
def specRankLevel (n : Nat) : LevelFilter :=
  if n = 0 then LevelFilter.error
  else if n = 1 then LevelFilter.warn
  else if n = 2 then LevelFilter.info
  else if n = 3 then LevelFilter.debug
  else LevelFilter.trace

/-- C3 counterexample: at the largest `u64` verbosity count the claim's
"any effective rank at least 4 resolves to Trace" fails — with an empty
environment (Off baseline, offset 1) the release-build `u64` sum
`u64::MAX + 1` wraps to 0, so `verbosity(u64::MAX)` resolves to Error, not
Trace. -/
theorem c3_wrap_counterexample :
    ((Logger.new [] true true).setVerbosity (U64_MOD - 1)).resolvedMaxLevel =
      LevelFilter.error
    ∧ ((Logger.new [] true true).setVerbosity (U64_MOD - 1)).resolvedMaxLevel ≠
        LevelFilter.trace := by
  constructor
  · decide
  · decide

/-- C3 as amended: when a verbosity count v is set (and no explicit level
cleared it), finalize resolves the global threshold to the level of rank
v + offset provided the `u64` sum v + offset does not overflow (it wraps
modulo 2^64 in release builds otherwise); the offset is 1 for an Off
baseline and otherwise the baseline's rank (Error = 0 .. Trace = 4), with 0
mapping to Error, 1 to Warn, 2 to Info, 3 to Debug and anything at least 4
to Trace. -/
theorem c3_verbosity_resolution (s : Logger) (v : Nat) (h : s.verbosity = some v)
    (hw : v + specOffset (filterLevel s.builder.dirs) < U64_MOD) :
    s.resolvedMaxLevel = specRankLevel (v + specOffset (filterLevel s.builder.dirs)) := by
  have hoff : specOffset (filterLevel s.builder.dirs) = offsetOf (filterLevel s.builder.dirs) := by
    cases filterLevel s.builder.dirs <;> rfl
  rw [hoff] at hw
  unfold Logger.resolvedMaxLevel Logger.finalizeConfig
  rw [h]
  simp only [filterLevel_append_one]
  rw [Nat.mod_eq_of_lt hw]
  simp only [rank_le_verbosityLevel, if_pos]
  rw [hoff]
  generalize v + offsetOf (filterLevel s.builder.dirs) = n
  rcases n with _ | _ | _ | _ | n <;>
    simp [verbosityLevel, LogLevel.toLevelFilter, specRankLevel]

/-- Witness for C3's amended theorem at a concrete input: a fresh logger
with verbosity 1 over an empty environment (sum 1 + 1, far below 2^64)
resolves to the level of rank 2, i.e. Info. -/
theorem c3_verbosity_resolution_witness :
    ((Logger.new [] true true).setVerbosity 1).verbosity = some 1
    ∧ 1 + specOffset (filterLevel ((Logger.new [] true true).setVerbosity 1).builder.dirs) < U64_MOD
    ∧ ((Logger.new [] true true).setVerbosity 1).resolvedMaxLevel =
        specRankLevel (1 + specOffset (filterLevel ((Logger.new [] true true).setVerbosity 1).builder.dirs)) :=
  ⟨rfl, by decide,
    c3_verbosity_resolution ((Logger.new [] true true).setVerbosity 1) 1 rfl (by decide)⟩

/-- C1 counterexample: calling the explicit-level setter first and the
verbosity setter afterwards does not resolve to the explicit level — with
an empty environment, `max_level Error` followed by `verbosity 2` resolves
to Info, because `verbosity` re-arms the verbosity path and `init` then
treats the explicit level only as the baseline for the offset. -/
theorem c1_explicit_then_verbosity_counterexample :
    (((Logger.new [] true true).max_level LogLevel.error).setVerbosity 2).resolvedMaxLevel =
      LevelFilter.info
    ∧ (((Logger.new [] true true).max_level LogLevel.error).setVerbosity 2).resolvedMaxLevel ≠
        LogLevel.error.toLevelFilter := by
  constructor
  · decide
  · decide

/-- C1 as amended: the explicit level resolves as the global threshold only
when no verbosity count is set after it (the setter itself clears any
earlier verbosity count) and no environment directive is more verbose than
the explicit level; under those conditions the resolved threshold equals
the explicit level for every baseline and every earlier verbosity call. -/
theorem c1_explicit_level_wins_when_last (s : Logger) (l : LogLevel)
    (h : (filterLevel s.builder.dirs).rank ≤ l.toLevelFilter.rank) :
    (s.max_level l).resolvedMaxLevel = l.toLevelFilter := by
  unfold Logger.resolvedMaxLevel Logger.finalizeConfig Logger.max_level
  simp [filterLevel_append_one, h]

/-- Witness for C1's amended theorem at a concrete input: after an earlier
verbosity call, `max_level Warn` on an empty environment resolves to Warn. -/
theorem c1_explicit_level_wins_when_last_witness :
    (filterLevel ((Logger.new [] true true).setVerbosity 3).builder.dirs).rank ≤
      LogLevel.warn.toLevelFilter.rank
    ∧ (((Logger.new [] true true).setVerbosity 3).max_level LogLevel.warn).resolvedMaxLevel =
        LogLevel.warn.toLevelFilter :=
  ⟨by decide,
    c1_explicit_level_wins_when_last ((Logger.new [] true true).setVerbosity 3) LogLevel.warn
      (by decide)⟩

/-- Definition following the specification's words for claim C5 (spec
section 4.3): the tag concatenates, in order, only the enabled fields —
the level text if `include_level`; the module path if `include_module_path`,
wrapped as `" [path]"` with a leading space when the level text is also
present and bare otherwise; and `" (line N)"` if `include_line_numbers` and
the record carries a line number. -/
def specTag (il : InnerLogger) (r : LogRecord) : String :=
  (if il.include_level then r.level.text else "")
    ++ (if il.include_module_path then
          if il.include_level then " [" ++ r.module_path.getD "unknown" ++ "]"
          else r.module_path.getD "unknown"
        else "")
    ++ (if il.include_line_numbers then
          match r.line with
          | some n => " (line " ++ toString n ++ ")"
          | none => ""
        else "")

/-- C5: for every record and config the rendered line is the tag (painted
when colours are enabled), then the separator, then the message, then the
line terminator, and the tag is exactly the specification's ordered
concatenation of the enabled fields. -/
theorem c5_rendered_line_structure (il : InnerLogger) (r : LogRecord) :
    il.writeLine r =
      (if il.colors then paint (il.colorFor r.level) (specTag il r) else specTag il r)
        ++ il.separator ++ r.args ++ "\n" := by
  have htag : il.tagOf r = specTag il r := rfl
  rw [InnerLogger.writeLine, htag]

/-- C4 counterexample: with level, line numbers and module path all
disabled but colours enabled (both streams interactive), the rendered line
is not the bare message — the empty tag is still painted, so the level's
colour escape codes precede the message. -/
theorem c4_bare_message_counterexample :
    ((((Logger.new [] true true).module_path false).setSeparator " = ").finalizeConfig).writeLine
        { level := LogLevel.error, module_path := some "app", line := none, args := "hello" } =
      "\x1b[38;5;9m\x1b[0m" ++ "hello" ++ "\n"
    ∧ ((((Logger.new [] true true).module_path false).setSeparator " = ").finalizeConfig).writeLine
        { level := LogLevel.error, module_path := some "app", line := none, args := "hello" } ≠
      "hello" ++ "\n" := by
  constructor
  · decide
  · decide

/-- C4 as amended: if the three tag flags are all false at finalize time the
separator is forced to the empty string once, in the frozen configuration,
so every rendered line is the bare message when colours are disabled; when
colours are enabled the bare message is still preceded by the level's
colour escape codes wrapping the empty tag. -/
theorem c4_separator_forced_empty (s : Logger) (r : LogRecord)
    (h1 : s.include_level = false) (h2 : s.include_line_numbers = false)
    (h3 : s.include_module_path = false) :
    (s.finalizeConfig).separator = ""
    ∧ (s.colors = false → (s.finalizeConfig).writeLine r = r.args ++ "\n")
    ∧ (s.colors = true →
        (s.finalizeConfig).writeLine r =
          paint ((s.finalizeConfig).colorFor r.level) "" ++ (r.args ++ "\n")) := by
  refine ⟨?_, ?_, ?_⟩
  · simp [Logger.finalizeConfig, h1, h2, h3]
  · intro hc
    simp [Logger.finalizeConfig, InnerLogger.writeLine, InnerLogger.tagOf, h1, h2, h3, hc,
      String.append_assoc]
  · intro hc
    simp [Logger.finalizeConfig, InnerLogger.writeLine, InnerLogger.tagOf, h1, h2, h3, hc,
      String.append_assoc]

/-- Witness for C4's amended theorem at a concrete input: the default
logger with module path disabled, a configured separator and colours off
renders the bare message. -/
theorem c4_separator_forced_empty_witness :
    (((Logger.new [] false false).module_path false).setSeparator " = ").include_level = false
    ∧ (((Logger.new [] false false).module_path false).setSeparator " = ").include_line_numbers = false
    ∧ (((Logger.new [] false false).module_path false).setSeparator " = ").include_module_path = false
    ∧ ((((Logger.new [] false false).module_path false).setSeparator " = ").finalizeConfig).separator = ""
    ∧ ((((Logger.new [] false false).module_path false).setSeparator " = ").colors = false →
        ((((Logger.new [] false false).module_path false).setSeparator " = ").finalizeConfig).writeLine
          { level := LogLevel.warn, module_path := none, line := none, args := "hi" } =
          "hi" ++ "\n") := by
  refine ⟨rfl, rfl, rfl, ?_, ?_⟩
  · exact (c4_separator_forced_empty _
      { level := LogLevel.warn, module_path := none, line := none, args := "hi" }
      rfl rfl rfl).1
  · exact fun hc => (c4_separator_forced_empty _
      { level := LogLevel.warn, module_path := none, line := none, args := "hi" }
      rfl rfl rfl).2.1 hc

/-- C9: when the module path flag is enabled and the record carries no
module path, the formatter renders the record exactly as if its module path
were the literal string "unknown". -/
theorem c9_unknown_module_path (il : InnerLogger) (r : LogRecord)
    (_hm : il.include_module_path = true) (hp : r.module_path = none) :
    il.writeLine r = il.writeLine { r with module_path := some "unknown" } := by
  have : il.tagOf r = il.tagOf { r with module_path := some "unknown" } := by
    unfold InnerLogger.tagOf
    rw [hp]
    rfl
  unfold InnerLogger.writeLine
  rw [this]

/-- Witness for C9 at a concrete input: the default configuration (module
path enabled) renders a record without a module path like one whose module
path is "unknown". -/
theorem c9_unknown_module_path_witness :
    ((Logger.new [] false false).finalizeConfig).include_module_path = true
    ∧ (({ level := LogLevel.info, module_path := none, line := some 7, args := "m" } : LogRecord).module_path
        = none)
    ∧ ((Logger.new [] false false).finalizeConfig).writeLine
        { level := LogLevel.info, module_path := none, line := some 7, args := "m" } =
      ((Logger.new [] false false).finalizeConfig).writeLine
        ({ ({ level := LogLevel.info, module_path := none, line := some 7, args := "m" } : LogRecord) with
            module_path := some "unknown" }) :=
  ⟨rfl, rfl,
    c9_unknown_module_path ((Logger.new [] false false).finalizeConfig)
      { level := LogLevel.info, module_path := none, line := some 7, args := "m" } rfl rfl⟩

theorem hasEsc_toString_nat (n : Nat) : hasEsc (toString n) = false :=
  hasEsc_natRepr n

theorem hasEsc_tagOf (il : InnerLogger) (r : LogRecord)
    (h3 : hasEsc (r.module_path.getD "unknown") = false) :
    hasEsc (il.tagOf r) = false := by
  have hlt : hasEsc (if il.include_level then r.level.text else "") = false := by
    cases il.include_level
    · show hasEsc "" = false
      decide
    · show hasEsc r.level.text = false
      cases r.level <;> decide
  have hmt : hasEsc
      (if il.include_module_path then
        if il.include_level then " [" ++ r.module_path.getD "unknown" ++ "]"
        else r.module_path.getD "unknown"
      else "") = false := by
    cases il.include_module_path
    · show hasEsc "" = false
      decide
    · cases il.include_level
      · exact h3
      · show hasEsc (" [" ++ r.module_path.getD "unknown" ++ "]") = false
        rw [hasEsc_append, hasEsc_append, h3]
        decide
  have hlnt : hasEsc
      (if il.include_line_numbers then
        match r.line with
        | some l => " (line " ++ toString l ++ ")"
        | none => ""
      else "") = false := by
    cases il.include_line_numbers
    · show hasEsc "" = false
      decide
    · cases r.line with
      | none =>
          show hasEsc "" = false
          decide
      | some n =>
          show hasEsc (" (line " ++ toString n ++ ")") = false
          rw [hasEsc_append, hasEsc_append, hasEsc_toString_nat]
          decide
  have hz : il.tagOf r =
      (if il.include_level then r.level.text else "")
        ++ (if il.include_module_path then
              if il.include_level then " [" ++ r.module_path.getD "unknown" ++ "]"
              else r.module_path.getD "unknown"
            else "")
        ++ (if il.include_line_numbers then
              match r.line with
              | some l => " (line " ++ toString l ++ ")"
              | none => ""
            else "") := rfl
  rw [hz, hasEsc_append, hasEsc_append, hlt, hmt, hlnt]
  rfl

/-- C6: when colours are enabled, exactly the tag string is wrapped in the
severity's configured colour — the escape opening, the plain tag, and the
reset, with separator, message and newline outside the wrap — and when
colours are disabled the rendered output contains no escape character
whenever the externally supplied separator, message and module path contain
none, whatever colours were configured. -/
theorem c6_color_wrapping (il : InnerLogger) (r : LogRecord) :
    (il.colors = true →
      il.writeLine r =
        (il.colorFor r.level).escCode ++ il.tagOf r ++ escReset
          ++ il.separator ++ r.args ++ "\n")
    ∧ (il.colors = false → hasEsc il.separator = false → hasEsc r.args = false →
        hasEsc (r.module_path.getD "unknown") = false →
        hasEsc (il.writeLine r) = false) := by
  constructor
  · intro hc
    simp [InnerLogger.writeLine, paint, hc]
  · intro hc h1 h2 h3
    unfold InnerLogger.writeLine
    rw [hc]
    show hasEsc (il.tagOf r ++ il.separator ++ r.args ++ "\n") = false
    rw [hasEsc_append, hasEsc_append, hasEsc_append, hasEsc_tagOf il r h3, h1, h2]
    decide

/-- A record used to instantiate witnesses: an error with a module path, a
line number and a plain message. -/
def sampleRecord : LogRecord :=
  { level := LogLevel.error, module_path := some "app", line := some 42, args := "hello" }

/-- Witness for C6 at concrete inputs: the frozen default configuration on
interactive streams paints exactly the tag, and the same configuration with
a reconfigured non-default error colour but non-interactive streams renders
without any escape character. -/
theorem c6_color_wrapping_witness :
    ((Logger.new [] true true).finalizeConfig).colors = true
    ∧ ((Logger.new [] true true).finalizeConfig).writeLine sampleRecord =
        (((Logger.new [] true true).finalizeConfig).colorFor sampleRecord.level).escCode
          ++ ((Logger.new [] true true).finalizeConfig).tagOf sampleRecord ++ escReset
          ++ ((Logger.new [] true true).finalizeConfig).separator ++ sampleRecord.args ++ "\n"
    ∧ (((Logger.new [] false false).color LogLevel.error (Colour.fixed 3)).finalizeConfig).colors = false
    ∧ hasEsc ((((Logger.new [] false false).color LogLevel.error (Colour.fixed 3)).finalizeConfig).writeLine
        sampleRecord) = false :=
  ⟨rfl,
    (c6_color_wrapping ((Logger.new [] true true).finalizeConfig) sampleRecord).1 rfl,
    rfl,
    (c6_color_wrapping (((Logger.new [] false false).color LogLevel.error (Colour.fixed 3)).finalizeConfig)
        sampleRecord).2 rfl (by decide) (by decide) (by decide)⟩

/-- A frozen logger whose filter lets every record through (environment
directive at Trace), used for the write-failure claims. -/
def crashLogger : InnerLogger :=
  (Logger.new [(none, LevelFilter.trace)] false false).finalizeConfig

/-- C2 counterexample: a record that passes the filter is not merely lost
when the stream write fails — the `.expect` in `InnerLogger::log` turns the
failure into a panic ("Write to stderr"), crashing the call instead of
swallowing it. -/
theorem c2_write_failure_panics_counterexample :
    crashLogger.matches sampleRecord = true
    ∧ crashLogger.log sampleRecord false = LogOutcome.panicked "Write to stderr" := by
  constructor
  · decide
  · decide

/-- C2 as amended: for every record that passes the filter, a failed stream
write makes the log call panic with the `.expect` message of the selected
stream (the record is lost and the call crashes), while a successful write
produces the formatted line on the selected stream; the sink configuration
itself is immutable, so a later call with a succeeding write still writes
normally. -/
theorem c2_write_failure_outcome (il : InnerLogger) (r : LogRecord)
    (h : il.matches r = true) :
    il.log r false = LogOutcome.panicked (expectMsg (il.selectOutput r.level))
    ∧ il.log r true = LogOutcome.wrote (il.selectOutput r.level) (il.writeLine r) := by
  unfold InnerLogger.log
  rw [h]
  exact ⟨rfl, rfl⟩

/-- Witness for C2's amended theorem at a concrete input. -/
theorem c2_write_failure_outcome_witness :
    crashLogger.matches sampleRecord = true
    ∧ crashLogger.log sampleRecord false =
        LogOutcome.panicked (expectMsg (crashLogger.selectOutput sampleRecord.level))
    ∧ crashLogger.log sampleRecord true =
        LogOutcome.wrote (crashLogger.selectOutput sampleRecord.level)
          (crashLogger.writeLine sampleRecord) :=
  ⟨by decide,
    (c2_write_failure_outcome crashLogger sampleRecord (by decide)).1,
    (c2_write_failure_outcome crashLogger sampleRecord (by decide)).2⟩

/-- C7: the `colors` setter yields enabled colours exactly when the caller
requested them and both streams were detected as interactive terminals at
the moment of the call. -/
theorem c7_colors_gated (s : Logger) (c ttyOut ttyErr : Bool) :
    (s.setColors c ttyOut ttyErr).colors = true ↔
      (c = true ∧ ttyOut = true ∧ ttyErr = true) := by
  simp [Logger.setColors, Bool.and_eq_true, and_assoc]

/-- C8: with no logger yet registered, the first `init` returns success and
the second returns the explicit already-set error to its caller. -/
theorem c8_double_registration (s1 s2 : Logger) (g : GlobalState)
    (h : g.registered = none) :
    (s1.init g).1 = Except.ok ()
    ∧ (s2.init (s1.init g).2).1 = Except.error SetLoggerError.alreadySet := by
  unfold Logger.init
  simp [h]

/-- Witness for C8 at concrete inputs: two default loggers initialised in
sequence against the fresh global state. -/
theorem c8_double_registration_witness :
    (⟨LevelFilter.off, none⟩ : GlobalState).registered = none
    ∧ ((Logger.new [] false false).init ⟨LevelFilter.off, none⟩).1 = Except.ok ()
    ∧ ((Logger.new [] false false).init
        (((Logger.new [] false false).init ⟨LevelFilter.off, none⟩).2)).1 =
        Except.error SetLoggerError.alreadySet :=
  ⟨rfl,
    (c8_double_registration (Logger.new [] false false) (Logger.new [] false false)
      ⟨LevelFilter.off, none⟩ rfl).1,
    (c8_double_registration (Logger.new [] false false) (Logger.new [] false false)
      ⟨LevelFilter.off, none⟩ rfl).2⟩

/-- The per-severity style entry addressed by the per-level setters. -/
def Logger.levelStyle (s : Logger) : LogLevel → Level
  | .error => s.error
  | .warn => s.warn
  | .info => s.info
  | .debug => s.debug
  | .trace => s.trace

/-- Every configuration field of the builder other than the five per-level
style entries. -/
def Logger.frameFields (s : Logger) :
    String × Bool × Bool × Bool × Bool × Option Nat × FilterBuilder :=
  (s.separator, s.colors, s.include_level, s.include_line_numbers,
    s.include_module_path, s.verbosity, s.builder)

/-- C10: the per-level `color` and `output` setters touch only the targeted
severity's entry — every other severity's style (colour and output) and
every non-style configuration field (separator, colours flag, the three
inclusion flags, verbosity, filter builder) are unchanged. -/
theorem c10_per_level_setters_frame (s : Logger) (l t : LogLevel)
    (c : Colour) (o : Output) (h : t ≠ l) :
    (s.color l c).levelStyle t = s.levelStyle t
    ∧ (s.output l o).levelStyle t = s.levelStyle t
    ∧ (s.color l c).frameFields = s.frameFields
    ∧ (s.output l o).frameFields = s.frameFields := by
  cases l <;> cases t <;>
    simp_all [Logger.color, Logger.output, Logger.levelStyle, Logger.frameFields]

/-- Witness for C10 at concrete inputs: recolouring and rerouting the error
level leaves the warn style and the frame fields of the default logger
untouched. -/
theorem c10_per_level_setters_frame_witness :
    LogLevel.warn ≠ LogLevel.error
    ∧ (((Logger.new [] true true).color LogLevel.error (Colour.fixed 3)).levelStyle LogLevel.warn =
        (Logger.new [] true true).levelStyle LogLevel.warn
    ∧ ((Logger.new [] true true).output LogLevel.error Output.stdout).levelStyle LogLevel.warn =
        (Logger.new [] true true).levelStyle LogLevel.warn
    ∧ ((Logger.new [] true true).color LogLevel.error (Colour.fixed 3)).frameFields =
        (Logger.new [] true true).frameFields
    ∧ ((Logger.new [] true true).output LogLevel.error Output.stdout).frameFields =
        (Logger.new [] true true).frameFields) :=
  ⟨by decide,
    c10_per_level_setters_frame (Logger.new [] true true) LogLevel.error LogLevel.warn
      (Colour.fixed 3) Output.stdout (by decide)⟩

end Loggerv
